import Mathlib

/-!
Shallow embedding of the tool-orchestration core of the weather application
(`weather_app.py`): the conversation data model, the per-round tool dispatch,
the bounded agent loop inside `WeatherApp.ask`, and the schema-to-contract
conversion `_get_args_schema`.

The reasoning engine (`self.llm.ainvoke`) is a black box: it is modelled as a
function from the invocation index and the current message list to an
assistant message (text plus requested tool calls).  A tool's contact with the
external MCP host (`tool.ainvoke`, which forwards to `call_mcp_tool`) is
modelled as a function from the argument mapping to `Except String String`:
`Except.error m` models the host call raising an exception with message `m`.
-/

/-- One tool-call request from the engine: `tool_call["id"]`, `tool_call["name"]`,
`tool_call["args"]` in `WeatherApp.ask`. -/
structure ToolCall where
  id : String
  name : String
  args : List (String × String)
deriving DecidableEq, Repr

/-- The engine's response object: `response.content` and `response.tool_calls`. -/
structure AssistantMsg where
  content : String
  tool_calls : List ToolCall
deriving DecidableEq, Repr

/-- One entry of the `messages` list threaded through `WeatherApp.ask`:
a system dict, a user dict, an appended assistant response, or a tool-result
dict `{role: tool, content, tool_call_id}`. -/
inductive Msg where
  | system (content : String)
  | user (content : String)
  | assistant (m : AssistantMsg)
  | tool (content : String) (tool_call_id : String)
deriving DecidableEq, Repr

/-- A bound LangChain tool from `self.tools`: its `name` and its `ainvoke`
behaviour.  `run args = Except.error m` models `tool.ainvoke(tool_args)`
raising an exception whose `str` is `m`. -/
structure Tool where
  name : String
  run : List (String × String) → Except String String

/-- A reasoning-engine behaviour: given the number of invocations made so far
and the current message list, produce the assistant turn
(`await self.llm.ainvoke(messages)`). -/
abbrev Engine : Type := Nat → List Msg → AssistantMsg

/-- The application state that `ask` reads: `self.llm` (set by `setup_agent`,
`none` when the agent is not initialized) and `self.tools`. -/
structure WeatherApp where
  llm : Option Engine
  tools : List Tool

/-- Execution of one tool call, lines 203-214 of `weather_app.py`: scan
`self.tools` for the first tool whose name matches, invoke it catching any
exception as `"Error executing tool: <message>"`; if no tool matches the
result is `"Tool <name> not found"`. -/
def execToolCall (tools : List Tool) (tc : ToolCall) : String :=
  match tools.find? (fun t => t.name == tc.name) with
  | some t =>
      match t.run tc.args with
      | Except.ok r => r
      | Except.error e => "Error executing tool: " ++ e
  | none => "Tool " ++ tc.name ++ " not found"

/-- The tool-result messages appended for one assistant turn, lines 199-221:
one `{role: tool, content: str(tool_result), tool_call_id: tool_call[id]}`
per requested call, in request order. -/
def dispatchCalls (tools : List Tool) (tcs : List ToolCall) : List Msg :=
  tcs.map (fun tc => Msg.tool (execToolCall tools tc) tc.id)

/-- Outcome of one run of the agent loop: the returned string, how many times
the engine was invoked, and the final message list. -/
structure RunResult where
  answer : String
  engineCalls : Nat
  log : List Msg
deriving DecidableEq, Repr

/-- The literal returned when the 10-round loop exhausts without a final
answer (line 223 of `weather_app.py`). -/
def fallbackAnswer : String :=
  "Sorry, I couldn\x27t process your request. Please try again."

/-- The agent loop of `WeatherApp.ask` (lines 185-223): up to `fuel` rounds;
each round invokes the engine, appends the assistant turn, returns its content
when it carries no tool calls, and otherwise appends one tool-result message
per requested call before the next round. -/
def agentLoop (engine : Engine) (tools : List Tool) :
    Nat → Nat → List Msg → RunResult
  | 0, _, msgs => ⟨fallbackAnswer, 0, msgs⟩
  | fuel + 1, idx, msgs =>
    let resp := engine idx msgs
    let msgs2 := msgs ++ [Msg.assistant resp]
    if resp.tool_calls.isEmpty then
      ⟨resp.content, 1, msgs2⟩
    else
      let r := agentLoop engine tools fuel (idx + 1)
        (msgs2 ++ dispatchCalls tools resp.tool_calls)
      ⟨r.answer, r.engineCalls + 1, r.log⟩

/-- The system message of `WeatherApp.ask` (lines 171-177). -/
def systemPrompt : String :=
  "You are a helpful weather assistant. You have access to weather data\nfor various cities through the available tools. When users ask about weather, use the\nappropriate tools to fetch the information and provide clear, conversational responses.\n\nAvailable cities: New York, London, Tokyo, Paris, Sydney\n\nIf a user asks about a city not in the list, politely inform them and suggest available cities."

/-- The seeded conversation of `WeatherApp.ask` (lines 180-183): one system
turn followed by one user turn carrying the question. -/
def initialMessages (question : String) : List Msg :=
  [Msg.system systemPrompt, Msg.user question]

/-- A raised Python error, as distinguished from a returned string. -/
inductive PyError where
  | runtimeError (msg : String)
deriving DecidableEq, Repr

/-- `WeatherApp.ask` (lines 165-223): raise `RuntimeError("Agent not
initialized")` when `self.llm` is unset, otherwise run the 10-round agent
loop on the seeded conversation. -/
def WeatherApp.ask (app : WeatherApp) (question : String) :
    Except PyError RunResult :=
  match app.llm with
  | none => Except.error (PyError.runtimeError "Agent not initialized")
  | some engine =>
      Except.ok (agentLoop engine app.tools 10 0 (initialMessages question))

/-- Holds when every assistant turn in a log requests at least one tool call,
i.e. no round produced a final answer. -/
def everyAssistantRequestsTools (log : List Msg) : Bool :=
  log.all fun m =>
    match m with
    | Msg.assistant a => !a.tool_calls.isEmpty
    | _ => true

/-- One non-final round as seen from the outside: the inner result with the
engine-invocation count raised by the round's own invocation. -/
def continueRound (r : RunResult) : RunResult :=
  ⟨r.answer, r.engineCalls + 1, r.log⟩

/-- A property entry of an MCP tool's declared JSON input schema: its declared
`type` (never consulted by the conversion) and optional `description`. -/
structure PropSchema where
  type : String
  description : Option String
deriving DecidableEq, Repr

/-- The declared input schema of a discovered MCP tool: its ordered
`properties` mapping and its `required` name list
(`mcp_tool.inputSchema.get("properties", {})` / `.get("required", [])`). -/
structure InputSchema where
  properties : List (String × PropSchema)
  required : List String
deriving DecidableEq, Repr

/-- A discovered MCP tool as consumed by `_get_args_schema`. -/
structure McpTool where
  name : String
  description : String
  inputSchema : InputSchema
deriving DecidableEq, Repr

/-- One field of a derived Pydantic args model: the Python type used for the
annotation (always `str` in this program), whether the field is required
(no default supplied), and the field description. -/
structure FieldSpec where
  fieldType : String
  required : Bool
  description : String
deriving DecidableEq, Repr

/-- The description of `WeatherInput.city` (line 23 of `weather_app.py`). -/
def cityDescription : String :=
  "The city name (e.g., \x27New York\x27, \x27London\x27, \x27Tokyo\x27)"

/-- The `WeatherInput` Pydantic model (lines 22-23): a single required string
field `city`. -/
def WeatherInputFields : List (String × FieldSpec) :=
  [("city", ⟨"str", true, cityDescription⟩)]

/-- The `EmptyInput` Pydantic model (lines 26-27): no fields. -/
def EmptyInputFields : List (String × FieldSpec) := []

/-- `WeatherApp._get_args_schema` (lines 95-122), as the field list of the
args model it selects or builds: `WeatherInput` when the schema has a `city`
property, `EmptyInput` when it has no properties, and otherwise a dynamic
model with one uniformly-`str` field per declared property, required exactly
when listed in the schema's `required` list. -/
def get_args_schema (mcp_tool : McpTool) : List (String × FieldSpec) :=
  let properties := mcp_tool.inputSchema.properties
  let required := mcp_tool.inputSchema.required
  if properties.any (fun p => p.1 == "city") then
    WeatherInputFields
  else if properties.isEmpty then
    EmptyInputFields
  else
    properties.map (fun p =>
      (p.1, ⟨"str", required.contains p.1, p.2.description.getD ""⟩))

/-- Failure of a ConversationLog append. -/
inductive AppendError where
  | OrphanToolResult
deriving DecidableEq, Repr

/-- Walks a reversed log: collects the call ids of the trailing tool-result
turns, and on reaching the nearest assistant turn returns the ids of its
requests not yet answered by those results. -/
def pendingAfter : List Msg → List String → List String
  | [], _ => []
  | Msg.tool _ cid :: rest, answered => pendingAfter rest (cid :: answered)
  | Msg.assistant a :: _, answered =>
      (a.tool_calls.map ToolCall.id).filter (fun i => !(answered.contains i))
  | Msg.system _ :: _, _ => []
  | Msg.user _ :: _, _ => []

/-- Modelled from the spec: the set of unanswered tool-call request ids of the
immediately preceding assistant turn (ConversationLog invariant, spec section 3).
The source keeps the conversation as a plain Python list and has no such
computation. -/
def pendingCallIds (log : List Msg) : List String :=
  pendingAfter log.reverse []

/-- Modelled from the spec: the Conversation State `append` operation of spec
section 4.3, absent from the source, where `messages.append` is an unchecked
Python list append.  Appending a tool-result turn whose call id matches no
unanswered request of the immediately preceding assistant turn fails with
`OrphanToolResult`; the function is pure, so a failed append produces no new
log and the caller's log is unchanged. -/
def ConversationLog.append (log : List Msg) (turn : Msg) :
    Except AppendError (List Msg) :=
  match turn with
  | Msg.tool content cid =>
      if (pendingCallIds log).contains cid then
        Except.ok (log ++ [Msg.tool content cid])
      else
        Except.error AppendError.OrphanToolResult
  | t => Except.ok (log ++ [t])

/-- The loop makes at most `fuel` engine invocations. -/
theorem agentLoop_engineCalls_le (engine : Engine) (tools : List Tool)
    (fuel : Nat) : ∀ (idx : Nat) (msgs : List Msg),
    (agentLoop engine tools fuel idx msgs).engineCalls ≤ fuel := by
  induction fuel with
  | zero => intro idx msgs; simp [agentLoop]
  | succ n ih =>
      intro idx msgs
      simp only [agentLoop]
      cases hE : (engine idx msgs).tool_calls.isEmpty with
      | true => simp [hE]
      | false =>
          simp only [hE, Bool.false_eq_true, if_false]
          exact Nat.succ_le_succ (ih _ _)

/-- When every assistant turn of the resulting log still requests tool calls,
the loop exhausts its fuel: the answer is the fallback string and the engine
was invoked exactly `fuel` times. -/
theorem agentLoop_exhausted (engine : Engine) (tools : List Tool)
    (fuel : Nat) : ∀ (idx : Nat) (msgs : List Msg),
    everyAssistantRequestsTools (agentLoop engine tools fuel idx msgs).log = true →
    (agentLoop engine tools fuel idx msgs).answer = fallbackAnswer ∧
    (agentLoop engine tools fuel idx msgs).engineCalls = fuel := by
  induction fuel with
  | zero => intro idx msgs _; exact ⟨rfl, rfl⟩
  | succ n ih =>
      intro idx msgs h
      cases hE : (engine idx msgs).tool_calls.isEmpty with
      | true =>
          exfalso
          simp only [agentLoop, hE, if_true] at h
          simp [everyAssistantRequestsTools, hE] at h
      | false =>
          simp only [agentLoop, hE, Bool.false_eq_true, if_false] at h ⊢
          obtain ⟨h1, h2⟩ := ih (idx + 1)
            (msgs ++ [Msg.assistant (engine idx msgs)] ++
              dispatchCalls tools (engine idx msgs).tool_calls) h
          exact ⟨h1, by rw [h2]⟩

/-- Claim C1: for every reasoning-engine behaviour, `ask` runs the loop and
terminates after at most 10 engine invocations; when no round yields an
assistant turn without tool-call requests, the answer is exactly the fallback
string and the engine was invoked exactly 10 times, hence never an 11th. -/
theorem ask_bounded_rounds (engine : Engine) (tools : List Tool) (q : String) :
    WeatherApp.ask ⟨some engine, tools⟩ q
      = Except.ok (agentLoop engine tools 10 0 (initialMessages q)) ∧
    (agentLoop engine tools 10 0 (initialMessages q)).engineCalls ≤ 10 ∧
    (everyAssistantRequestsTools
        (agentLoop engine tools 10 0 (initialMessages q)).log = true →
      (agentLoop engine tools 10 0 (initialMessages q)).answer = fallbackAnswer ∧
      (agentLoop engine tools 10 0 (initialMessages q)).engineCalls = 10) :=
  ⟨rfl, agentLoop_engineCalls_le engine tools 10 0 (initialMessages q),
    fun h => agentLoop_exhausted engine tools 10 0 (initialMessages q) h⟩

/-- Witness for C1 at an engine that requests one tool call on every round. -/
theorem ask_bounded_rounds_witness :
    (agentLoop (fun _ _ => ⟨"", [⟨"1", "t", []⟩]⟩) [] 10 0
        (initialMessages "hi")).answer = fallbackAnswer ∧
    (agentLoop (fun _ _ => ⟨"", [⟨"1", "t", []⟩]⟩) [] 10 0
        (initialMessages "hi")).engineCalls = 10 :=
  (ask_bounded_rounds (fun _ _ => ⟨"", [⟨"1", "t", []⟩]⟩) [] "hi").2.2 (by decide)

/-- Claim C2: a round in which the engine returns an assistant turn with zero
tool-call requests ends the loop with exactly that turn's text; in particular
`ask` with an engine that answers without tool calls on the first round
returns that text as the final answer. -/
theorem final_turn_text_returned (engine : Engine) (tools : List Tool)
    (fuel idx : Nat) (msgs : List Msg)
    (h : (engine idx msgs).tool_calls = []) :
    (agentLoop engine tools (fuel + 1) idx msgs).answer
      = (engine idx msgs).content ∧
    (∀ q : String, (engine 0 (initialMessages q)).tool_calls = [] →
      WeatherApp.ask ⟨some engine, tools⟩ q
        = Except.ok ⟨(engine 0 (initialMessages q)).content, 1,
            initialMessages q ++ [Msg.assistant (engine 0 (initialMessages q))]⟩) := by
  constructor
  · simp [agentLoop, h]
  · intro q hq
    simp [WeatherApp.ask, agentLoop, hq]

/-- Witness for C2: an engine returning zero tool calls with text
`Paris: Cloudy` on the first turn makes `ask` return exactly that string. -/
theorem final_turn_text_returned_witness :
    WeatherApp.ask ⟨some (fun _ _ => ⟨"Paris: Cloudy", []⟩), []⟩ "weather in Paris?"
      = Except.ok ⟨"Paris: Cloudy", 1,
          initialMessages "weather in Paris?" ++
            [Msg.assistant ⟨"Paris: Cloudy", []⟩]⟩ :=
  (final_turn_text_returned (fun _ _ => ⟨"Paris: Cloudy", []⟩) [] 9 0
      (initialMessages "weather in Paris?") rfl).2 "weather in Paris?" rfl

/-- Claim C3: when an assistant turn carries `n ≥ 1` tool-call requests, the
messages handed to the next engine invocation extend the log by that assistant
turn followed by exactly `n` tool-result turns, positionally one per request
in the order the engine listed them, each carrying its request's call id. -/
theorem tool_results_match_requests (engine : Engine) (tools : List Tool)
    (fuel idx : Nat) (msgs : List Msg)
    (h : (engine idx msgs).tool_calls ≠ []) :
    (dispatchCalls tools (engine idx msgs).tool_calls).length
      = (engine idx msgs).tool_calls.length ∧
    (∀ i : Nat, (dispatchCalls tools (engine idx msgs).tool_calls)[i]?
      = ((engine idx msgs).tool_calls[i]?).map
          (fun tc => Msg.tool (execToolCall tools tc) tc.id)) ∧
    agentLoop engine tools (fuel + 1) idx msgs
      = continueRound (agentLoop engine tools fuel (idx + 1)
          (msgs ++ [Msg.assistant (engine idx msgs)]
            ++ dispatchCalls tools (engine idx msgs).tool_calls)) := by
  have hE : (engine idx msgs).tool_calls.isEmpty = false := by
    cases hc : (engine idx msgs).tool_calls
    · exact absurd hc h
    · rfl
  refine ⟨by simp [dispatchCalls], fun i => ?_, ?_⟩
  · simp [dispatchCalls, List.getElem?_map]
  · simp [agentLoop, hE, continueRound]

/-- Witness for C3 at a turn with two tool-call requests. -/
theorem tool_results_match_requests_witness :
    (dispatchCalls [] [⟨"a", "t1", []⟩, ⟨"b", "t2", []⟩]).length = 2 ∧
    (dispatchCalls [] [⟨"a", "t1", []⟩, ⟨"b", "t2", []⟩])[1]?
      = some (Msg.tool "Tool t2 not found" "b") := by
  have hm := tool_results_match_requests
    (fun _ _ => ⟨"", [⟨"a", "t1", []⟩, ⟨"b", "t2", []⟩]⟩) [] 0 0 [] (by decide)
  exact ⟨hm.1, (hm.2.1 1).trans (by decide)⟩

/-- Claim C4: a tool-call request naming a tool absent from the catalog yields
the tool-result text `Tool <name> not found`, uniformly in every tool's `run`
behaviour — so no external host call is consulted — and the loop appends that
turn and continues to the next engine invocation. -/
theorem unknown_tool_fail_fast (tools : List Tool) (tc : ToolCall)
    (h : ∀ t ∈ tools, t.name ≠ tc.name) :
    execToolCall tools tc = "Tool " ++ tc.name ++ " not found" ∧
    dispatchCalls tools [tc]
      = [Msg.tool ("Tool " ++ tc.name ++ " not found") tc.id] ∧
    (∀ (engine : Engine) (fuel idx : Nat) (msgs : List Msg),
      (engine idx msgs).tool_calls = [tc] →
      agentLoop engine tools (fuel + 1) idx msgs
        = continueRound (agentLoop engine tools fuel (idx + 1)
            (msgs ++ [Msg.assistant (engine idx msgs)]
              ++ [Msg.tool ("Tool " ++ tc.name ++ " not found") tc.id]))) := by
  have hf : tools.find? (fun t => t.name == tc.name) = none := by
    rw [List.find?_eq_none]
    intro t ht
    simpa using h t ht
  have hx : execToolCall tools tc = "Tool " ++ tc.name ++ " not found" := by
    simp [execToolCall, hf]
  refine ⟨hx, by simp [dispatchCalls, hx], fun engine fuel idx msgs hq => ?_⟩
  simp [agentLoop, hq, dispatchCalls, hx, continueRound]

/-- Witness for C4 at a catalog without the requested name. -/
theorem unknown_tool_fail_fast_witness :
    execToolCall [⟨"get_forecast", fun _ => Except.ok "sunny"⟩] ⟨"1", "missing", []⟩
      = "Tool missing not found" :=
  (unknown_tool_fail_fast [⟨"get_forecast", fun _ => Except.ok "sunny"⟩]
    ⟨"1", "missing", []⟩ (by intro t ht; simp at ht; simp [ht])).1

/-- Claim C5: when the matched tool's invocation raises a fault, the fault is
caught and rendered as the tool-result text `Error executing tool: <message>`,
and the loop appends that turn and continues to the next engine invocation
rather than aborting. -/
theorem tool_fault_caught (tools : List Tool) (tc : ToolCall) (t : Tool)
    (msg : String)
    (hfind : tools.find? (fun u => u.name == tc.name) = some t)
    (hrun : t.run tc.args = Except.error msg) :
    execToolCall tools tc = "Error executing tool: " ++ msg ∧
    (∀ (engine : Engine) (fuel idx : Nat) (msgs : List Msg),
      (engine idx msgs).tool_calls = [tc] →
      agentLoop engine tools (fuel + 1) idx msgs
        = continueRound (agentLoop engine tools fuel (idx + 1)
            (msgs ++ [Msg.assistant (engine idx msgs)]
              ++ [Msg.tool ("Error executing tool: " ++ msg) tc.id]))) := by
  have hx : execToolCall tools tc = "Error executing tool: " ++ msg := by
    simp [execToolCall, hfind, hrun]
  refine ⟨hx, fun engine fuel idx msgs hq => ?_⟩
  simp [agentLoop, hq, dispatchCalls, hx, continueRound]

/-- Witness for C5 at a tool whose invocation raises. -/
theorem tool_fault_caught_witness :
    execToolCall [⟨"t", fun _ => Except.error "boom"⟩] ⟨"1", "t", []⟩
      = "Error executing tool: boom" :=
  (tool_fault_caught [⟨"t", fun _ => Except.error "boom"⟩] ⟨"1", "t", []⟩
    ⟨"t", fun _ => Except.error "boom"⟩ "boom" rfl rfl).1

/-- Claim C6: appending a tool-result turn whose call id matches no unanswered
request of the immediately preceding assistant turn fails with
`OrphanToolResult`, and no successor log is produced, so the caller's log is
unchanged. -/
theorem orphan_tool_result_rejected (log : List Msg) (txt cid : String)
    (h : (pendingCallIds log).contains cid = false) :
    ConversationLog.append log (Msg.tool txt cid)
      = Except.error AppendError.OrphanToolResult ∧
    ∀ newLog : List Msg,
      ConversationLog.append log (Msg.tool txt cid) ≠ Except.ok newLog := by
  have hp : ConversationLog.append log (Msg.tool txt cid)
      = Except.error AppendError.OrphanToolResult := by
    simp only [ConversationLog.append]
    rw [if_neg]
    simpa using h
  exact ⟨hp, fun newLog hn => by rw [hp] at hn; exact Except.noConfusion hn⟩

/-- Witness for C6: a log with no assistant turn has no pending request, so a
tool-result append is rejected. -/
theorem orphan_tool_result_rejected_witness :
    ConversationLog.append (initialMessages "hi") (Msg.tool "72F" "x")
      = Except.error AppendError.OrphanToolResult :=
  (orphan_tool_result_rejected (initialMessages "hi") "72F" "x" (by decide)).1

/-- Claim C7: a discovered tool whose declared schema has a `city` property is
given the `WeatherInput` contract: exactly one parameter, named `city`, typed
`str`, required, and nothing else. -/
theorem city_schema_contract (mcp_tool : McpTool)
    (h : mcp_tool.inputSchema.properties.any (fun p => p.1 == "city") = true) :
    get_args_schema mcp_tool = [("city", ⟨"str", true, cityDescription⟩)] := by
  simp [get_args_schema, h, WeatherInputFields]

/-- Witness for C7 at the weather tool's schema. -/
theorem city_schema_contract_witness :
    get_args_schema ⟨"get_current_weather", "Get current weather",
        ⟨[("city", ⟨"string", some "The city name"⟩)], ["city"]⟩⟩
      = [("city", ⟨"str", true, cityDescription⟩)] :=
  city_schema_contract ⟨"get_current_weather", "Get current weather",
    ⟨[("city", ⟨"string", some "The city name"⟩)], ["city"]⟩⟩ (by decide)

/-- Claim C8: a discovered tool whose declared schema has an empty property
set is given the `EmptyInput` contract: no parameters. -/
theorem empty_schema_no_params (mcp_tool : McpTool)
    (h : mcp_tool.inputSchema.properties = []) :
    get_args_schema mcp_tool = [] := by
  simp [get_args_schema, h, EmptyInputFields]

/-- Witness for C8 at a parameterless tool. -/
theorem empty_schema_no_params_witness :
    get_args_schema ⟨"list_cities", "List available cities", ⟨[], []⟩⟩ = [] :=
  empty_schema_no_params ⟨"list_cities", "List available cities", ⟨[], []⟩⟩ rfl

/-- Claim C9: a discovered tool whose schema has a non-empty property set
without a `city` property gets one parameter per declared property, in order,
each typed `str` regardless of the schema's declared type, required exactly
when the property is listed in the schema's required list. -/
theorem dynamic_schema_contract (mcp_tool : McpTool)
    (hne : mcp_tool.inputSchema.properties ≠ [])
    (hcity : ∀ p ∈ mcp_tool.inputSchema.properties, p.1 ≠ "city") :
    get_args_schema mcp_tool
      = mcp_tool.inputSchema.properties.map (fun p =>
          (p.1, ⟨"str", mcp_tool.inputSchema.required.contains p.1,
            p.2.description.getD ""⟩)) ∧
    (get_args_schema mcp_tool).length
      = mcp_tool.inputSchema.properties.length ∧
    ∀ f ∈ get_args_schema mcp_tool,
      (f.2 : FieldSpec).fieldType = "str" ∧
      f.2.required = mcp_tool.inputSchema.required.contains f.1 := by
  have hAny : mcp_tool.inputSchema.properties.any (fun p => p.1 == "city")
      = false := by
    rw [List.any_eq_false]
    intro p hp
    simpa using hcity p hp
  have hEmpty : mcp_tool.inputSchema.properties.isEmpty = false := by
    cases hc : mcp_tool.inputSchema.properties
    · exact absurd hc hne
    · rfl
  have hmap : get_args_schema mcp_tool
      = mcp_tool.inputSchema.properties.map (fun p =>
          (p.1, ⟨"str", mcp_tool.inputSchema.required.contains p.1,
            p.2.description.getD ""⟩)) := by
    simp [get_args_schema, hAny, hEmpty]
  refine ⟨hmap, by rw [hmap]; simp, fun f hf => ?_⟩
  rw [hmap] at hf
  obtain ⟨p, _, rfl⟩ := List.mem_map.mp hf
  exact ⟨rfl, rfl⟩

/-- Witness for C9 at a two-property schema with a non-string declared type. -/
theorem dynamic_schema_contract_witness :
    get_args_schema ⟨"set_units", "Set display units",
        ⟨[("units", ⟨"integer", some "code"⟩), ("scale", ⟨"boolean", none⟩)],
          ["units"]⟩⟩
      = [("units", ⟨"str", true, "code"⟩), ("scale", ⟨"str", false, ""⟩)] :=
  (dynamic_schema_contract ⟨"set_units", "Set display units",
      ⟨[("units", ⟨"integer", some "code"⟩), ("scale", ⟨"boolean", none⟩)],
        ["units"]⟩⟩ (by decide) (by decide)).1

/-- Claim C10: `ask` on an application whose engine binding was never
established raises `RuntimeError("Agent not initialized")` — an error, not a
returned string — and, the engine being absent from the state, no engine
invocation or tool dispatch can occur. -/
theorem ask_uninitialized_raises (tools : List Tool) (q : String) :
    WeatherApp.ask ⟨none, tools⟩ q
      = Except.error (PyError.runtimeError "Agent not initialized") := rfl
